import Mathlib

/-!
Shallow embedding of the core of the `flash-point` repository:
the settlement calculator (`src/frontend/src/services/nitroliteClient.js`),
the matchmaking / turn-synchronizer backend (`src/backend/src/index.js`),
and the channel-negotiation flow (`src/frontend/src/components/GameLobby.jsx`).
JS numbers and BigInt are embedded as `Nat`/`Int` with explicit truncating
division where the source divides; all state mutation is explicit state passing.
-/

/- ============================================================
   Part 1: the settlement calculator
   Source: src/frontend/src/services/nitroliteClient.js
   ============================================================ -/

/-- One entry of `REWARD_TIERS`.  The source stores `multiplier` as a float
(2.0, 1.5, 1.2, 1.0) and only ever uses it through
`BigInt(Math.floor(multiplier * 100))`; for those four values this is exactly
200, 150, 120, 100, so the tier is embedded with that exact basis-point
integer (`multiplierBasis`). -/
structure RewardTier where
  minHeight : Int
  multiplierBasis : Nat
  label : String
  bonus : String
deriving Repr, DecidableEq

/-- `REWARD_TIERS` from nitroliteClient.js (descending thresholds). -/
def REWARD_TIERS : List RewardTier :=
  [⟨300, 200, "🏆 Legendary", "100%"⟩,
   ⟨200, 150, "🥇 Epic", "50%"⟩,
   ⟨100, 120, "🥈 Great", "20%"⟩,
   ⟨0, 100, "✅ Complete", "0%"⟩]

/-- The `for (const tier of REWARD_TIERS) if (towerHeight >= tier.minHeight)`
loop body of `getRewardTier`. -/
def findTier (towerHeight : Int) : List RewardTier → Option RewardTier
  | [] => none
  | t :: ts => if towerHeight ≥ t.minHeight then some t else findTier towerHeight ts

/-- `getRewardTier(towerHeight)`: first tier whose `minHeight` is at most the
metric, defaulting to the last list entry (`REWARD_TIERS[REWARD_TIERS.length - 1]`). -/
def getRewardTier (towerHeight : Int) : RewardTier :=
  match findTier towerHeight REWARD_TIERS with
  | some t => t
  | none => REWARD_TIERS.getLastD ⟨0, 100, "✅ Complete", "0%"⟩

/-- The settlement quantities computed and returned by `settleGameSession`
(per-participant payouts, protocol fee, selected tier).  The source's return
value additionally echoes the inputs (`towerHeight`, `multiplier`) and the
transport response; those carry no settlement computation and are omitted.
All quantities are nonnegative BigInts in the source (every tier multiplier
is at least 1.0), so `Nat` with truncating division is exact. -/
structure SettlementResult where
  player1Payout : Nat
  player2Payout : Nat
  protocolFee : Nat
  rewardTier : RewardTier
deriving Repr, DecidableEq

/-- The pure computation inside `settleGameSession(gameResult, entryFee)`:
`totalEntryFees = entryFee * 2`, `totalRewards = totalEntryFees * basis / 100`,
fee = 5% of the bonus portion only, and an equal integer split of the
distributable amount (`distributableRewards / 2n` for both participants). -/
def settleGameSession (towerHeight : Int) (entryFee : Nat) : SettlementResult :=
  let rewardTier := getRewardTier towerHeight
  let totalEntryFees := entryFee * 2
  let totalRewards := totalEntryFees * rewardTier.multiplierBasis / 100
  let bonusPortion := totalRewards - totalEntryFees
  let protocolFee := if bonusPortion > 0 then bonusPortion * 5 / 100 else 0
  let distributableRewards := totalRewards - protocolFee
  { player1Payout := distributableRewards / 2
    player2Payout := distributableRewards / 2
    protocolFee := protocolFee
    rewardTier := rewardTier }

/-- `totalRewards` as computed inside `settleGameSession`. -/
def totalRewardsOf (towerHeight : Int) (entryFee : Nat) : Nat :=
  entryFee * 2 * (getRewardTier towerHeight).multiplierBasis / 100

/- ============================================================
   Part 2: the matchmaking / turn-synchronizer backend
   Source: src/backend/src/index.js
   Each socket.io handler is embedded as a pure function from the server
   state (the three in-memory `Map`s) to a new state plus the list of
   events it emits; the server processes one inbound message to
   completion at a time, so a trace is a fold over these handlers.
   ============================================================ -/

/-- A block state `{ id, x, y, angle, label }` (the backend treats blocks
as opaque payloads; this is the shape documented in the source comment). -/
structure Block where
  id : Nat
  x : Int
  y : Int
  angle : Int
  label : String
deriving Repr, DecidableEq

/-- A participant record inside a game (`player1` / `player2`): the source
objects carry `socketId`, `address`, `stateChannelProof`, `score` and a
`finished` flag that is absent (falsy) until `game_end` sets it. -/
structure GamePlayer where
  socketId : Nat
  address : String
  stateChannelProof : Option String
  score : Int
  finished : Bool
deriving Repr, DecidableEq

/-- The shared `gameState` object created at match time. -/
structure SharedGameState where
  blocks : List Block
  currentTurn : Nat
  turnCount : Nat
  spawnedBlocks : Nat
deriving Repr, DecidableEq

/-- The string statuses the backend assigns: `'starting'`, `'completed'`,
`'abandoned'`. -/
inductive GameStatus where
  | starting
  | completed
  | abandoned
deriving Repr, DecidableEq

/-- One side of the result object built in the `game_end` handler. -/
structure PlayerResult where
  address : String
  score : Int
  payout : Int
deriving Repr, DecidableEq

/-- The result object emitted as `game_result`. -/
structure GameResult where
  gameId : String
  player1 : PlayerResult
  player2 : PlayerResult
  winner : String
  fee : Int
deriving Repr, DecidableEq

/-- One entry of `activeGames`. `betAmount` is `BET_AMOUNT = '1000000'`
parsed as a BigInt. `result` is absent until settlement stores it. -/
structure Game where
  id : String
  modeId : String
  player1 : GamePlayer
  player2 : GamePlayer
  betAmount : Int
  status : GameStatus
  gameState : SharedGameState
  result : Option GameResult
deriving Repr, DecidableEq

/-- One waiting entry of a lobby queue. -/
structure LobbyEntry where
  socketId : Nat
  address : String
  stateChannelProof : Option String
  joinedAt : Nat
deriving Repr, DecidableEq

/-- One entry of the `lobbies` map. -/
structure Lobby where
  players : List LobbyEntry
  createdAt : Nat
deriving Repr, DecidableEq

/-- One entry of the `playerSockets` map.  The fields are optional because
the source builds these objects by spreading possibly-undefined values
(e.g. `{ ...playerSockets.get(id), gameId }`). -/
structure SocketInfo where
  address : Option String
  modeId : Option String
  gameId : Option String
deriving Repr, DecidableEq

/-- The three in-memory maps of the backend, embedded as functions. -/
structure ServerState where
  lobbies : String → Option Lobby
  activeGames : String → Option Game
  playerSockets : Nat → Option SocketInfo

/-- `Map.set` / `Map.delete` on a function-embedded map. -/
def mapUpdate {α β : Type} [DecidableEq α] (m : α → Option β) (k : α) (v : Option β) :
    α → Option β :=
  fun k' => if k' = k then v else m k'

/-- The empty server state (all three maps empty). -/
def initState : ServerState :=
  { lobbies := fun _ => none, activeGames := fun _ => none, playerSockets := fun _ => none }

/-- Events the handlers emit through socket.io.  `room`-addressed events go
to every member of the game room; constructors whose source uses
`socket.to(room)` deliver to the room minus the sender. -/
inductive Emit where
  | waitingForOpponent (toSocket : Nat) (modeId : String) (position : Nat)
  | matchFound (room : String)
  | gameStart (toSocket : Nat) (gameId : String) (playerNumber : Nat) (isYourTurn : Bool)
  | errorMsg (toSocket : Nat) (message : String)
  | blockSpawned (room : String) (block : Block) (spawnedBy : Nat) (totalBlocks : Nat)
  | turnChanged (toSocket : Nat) (currentTurn : Nat) (isYourTurn : Bool)
      (blockStates : List Block) (turnCount : Nat)
  | blockPositionUpdate (roomExceptSender : String) (blockId : Nat) (x y angle : Int)
  | gameStateSync (roomExceptSender : String) (blockStates : List Block) (fromPlayer : Nat)
  | leftLobby (toSocket : Nat) (modeId : String)
  | gameResultEvt (room : String) (result : GameResult)
  | opponentDisconnected (roomExceptSender : String) (gameId : String) (message : String)
deriving Repr, DecidableEq

/-- The `join_lobby` handler.  `freshGameId` stands for the `uuidv4()` call
and `now` for `Date.now()`.  `lobbies.get(modeId)` is always present after
the ensure step, so the defaulted read is exact. -/
def handleJoinLobby (st : ServerState) (sid : Nat) (modeId address : String)
    (stateChannelProof : Option String) (freshGameId : String) (now : Nat) :
    ServerState × List Emit :=
  let sockets1 := mapUpdate st.playerSockets sid (some ⟨some address, some modeId, none⟩)
  let lobbies1 :=
    match st.lobbies modeId with
    | some _ => st.lobbies
    | none => mapUpdate st.lobbies modeId (some ⟨[], now⟩)
  let lobby := (lobbies1 modeId).getD ⟨[], now⟩
  match lobby.players with
  | opponent :: rest =>
    let game : Game :=
      { id := freshGameId
        modeId := modeId
        player1 := ⟨opponent.socketId, opponent.address, opponent.stateChannelProof, 0, false⟩
        player2 := ⟨sid, address, stateChannelProof, 0, false⟩
        betAmount := 1000000
        status := .starting
        gameState := ⟨[], 1, 0, 0⟩
        result := none }
    let sockets2 := mapUpdate sockets1 opponent.socketId
      (match sockets1 opponent.socketId with
       | some info => some { info with gameId := some freshGameId }
       | none => some ⟨none, none, some freshGameId⟩)
    let sockets3 := mapUpdate sockets2 sid (some ⟨some address, some modeId, some freshGameId⟩)
    ({ st with
        playerSockets := sockets3
        lobbies := mapUpdate lobbies1 modeId (some { lobby with players := rest })
        activeGames := mapUpdate st.activeGames freshGameId (some game) },
     [.matchFound freshGameId,
      .gameStart opponent.socketId freshGameId 1 true,
      .gameStart sid freshGameId 2 false])
  | [] =>
    let lobby' := { lobby with
      players := lobby.players ++ [⟨sid, address, stateChannelProof, now⟩] }
    ({ st with playerSockets := sockets1,
               lobbies := mapUpdate lobbies1 modeId (some lobby') },
     [.waitingForOpponent sid modeId lobby'.players.length])

/-- The `spawn_block` handler. -/
def handleSpawnBlock (st : ServerState) (sid : Nat) (gameId : String) (block : Block) :
    ServerState × List Emit :=
  match st.activeGames gameId with
  | none => (st, [])
  | some game =>
    let playerNumber := if game.player1.socketId = sid then 1 else 2
    if game.gameState.currentTurn ≠ playerNumber then
      (st, [.errorMsg sid "Not your turn!"])
    else
      let gs := { game.gameState with
        blocks := game.gameState.blocks ++ [block]
        spawnedBlocks := game.gameState.spawnedBlocks + 1 }
      ({ st with activeGames := mapUpdate st.activeGames gameId (some { game with gameState := gs }) },
       [.blockSpawned gameId block playerNumber gs.spawnedBlocks])

/-- The `end_turn` handler: wholesale snapshot replacement, turn-counter
increment and turn flip, all gated on the sender being the turn holder
(a non-holder's message just returns, emitting nothing). -/
def handleEndTurn (st : ServerState) (sid : Nat) (gameId : String) (blockStates : List Block) :
    ServerState × List Emit :=
  match st.activeGames gameId with
  | none => (st, [])
  | some game =>
    let playerNumber := if game.player1.socketId = sid then 1 else 2
    if game.gameState.currentTurn ≠ playerNumber then
      (st, [])
    else
      let newTurn := if playerNumber = 1 then 2 else 1
      let gs := { game.gameState with
        blocks := blockStates
        turnCount := game.gameState.turnCount + 1
        currentTurn := newTurn }
      ({ st with activeGames := mapUpdate st.activeGames gameId (some { game with gameState := gs }) },
       [.turnChanged game.player1.socketId newTurn (decide (newTurn = 1)) blockStates gs.turnCount,
        .turnChanged game.player2.socketId newTurn (decide (newTurn = 2)) blockStates gs.turnCount])

/-- The `sync_block_position` handler: if the game exists the pose update is
relayed to the rest of the room, with no turn check and no state change. -/
def handleSyncBlockPosition (st : ServerState) (sid : Nat) (gameId : String)
    (blockId : Nat) (x y angle : Int) : ServerState × List Emit :=
  match st.activeGames gameId with
  | none => (st, [])
  | some _ => (st, [.blockPositionUpdate gameId blockId x y angle])

/-- The `sync_game_state` handler: only the turn holder's snapshot is stored
and relayed; a non-holder's message just returns, emitting nothing. -/
def handleSyncGameState (st : ServerState) (sid : Nat) (gameId : String)
    (blockStates : List Block) : ServerState × List Emit :=
  match st.activeGames gameId with
  | none => (st, [])
  | some game =>
    let playerNumber := if game.player1.socketId = sid then 1 else 2
    if game.gameState.currentTurn ≠ playerNumber then
      (st, [])
    else
      let game' := { game with gameState := { game.gameState with blocks := blockStates } }
      ({ st with activeGames := mapUpdate st.activeGames gameId (some game') },
       [.gameStateSync gameId blockStates playerNumber])

/-- The `leave_lobby` handler. -/
def handleLeaveLobby (st : ServerState) (sid : Nat) (modeId : String) :
    ServerState × List Emit :=
  match st.playerSockets sid with
  | none => (st, [])
  | some _ =>
    let st' :=
      match st.lobbies modeId with
      | none => st
      | some lobby =>
        let lobby' := { lobby with players := lobby.players.filter (fun p => p.socketId ≠ sid) }
        { st with lobbies := mapUpdate st.lobbies modeId (some lobby') }
    (st', [.leftLobby sid modeId])

/-- The payout-share computation of `game_end`: the source computes the
float `pScore / totalScore` (or `0.5` when the total is not positive) and
takes `Math.floor(ratio * 1000)`.  This is embedded exactly over the
rationals as the floor division `(pScore * 1000).fdiv totalScore`
(`Math.floor` rounds toward negative infinity); the double rounding of the
source can differ from the exact value only at representation boundaries,
which none of the verified inputs touch. -/
def scoreThousandths (pScore totalScore : Int) : Int :=
  if totalScore > 0 then (pScore * 1000).fdiv totalScore else 500

/-- The settlement object built in the `game_end` handler once both
participants are finished.  BigInt division truncates toward zero,
embedded as `Int.tdiv`. -/
def computeGameResult (gameId : String) (game : Game) : GameResult :=
  let p1Score := game.player1.score
  let p2Score := game.player2.score
  let totalScore := p1Score + p2Score
  let totalPot := game.betAmount * 2
  let fee := (totalPot * 2).tdiv 100
  let distributablePot := totalPot - fee
  let p1Payout := (distributablePot * scoreThousandths p1Score totalScore).tdiv 1000
  let p2Payout := (distributablePot * scoreThousandths p2Score totalScore).tdiv 1000
  { gameId := gameId
    player1 := ⟨game.player1.address, p1Score, p1Payout⟩
    player2 := ⟨game.player2.address, p2Score, p2Payout⟩
    winner :=
      if p1Score > p2Score then game.player1.address
      else if p2Score > p1Score then game.player2.address
      else "tie"
    fee := fee }

/-- The `game_end` handler: records the sender's final score and finished
flag, and as soon as both finished flags are set it computes, stores and
emits the settlement result and marks the game `completed` — with no check
of the current status and no rejection of repeated submissions.  (The
delayed `activeGames.delete` 60 s later is outside the untimed model.) -/
def handleGameEnd (st : ServerState) (sid : Nat) (gameId : String) (finalScore : Int) :
    ServerState × List Emit :=
  match st.activeGames gameId with
  | none => (st, [])
  | some game =>
    let game1 :=
      if game.player1.socketId = sid then
        { game with player1 := { game.player1 with score := finalScore, finished := true } }
      else if game.player2.socketId = sid then
        { game with player2 := { game.player2 with score := finalScore, finished := true } }
      else game
    if game1.player1.finished && game1.player2.finished then
      let result := computeGameResult gameId game1
      let game2 := { game1 with status := .completed, result := some result }
      ({ st with activeGames := mapUpdate st.activeGames gameId (some game2) },
       [.gameResultEvt gameId result])
    else
      ({ st with activeGames := mapUpdate st.activeGames gameId (some game1) }, [])

/-- The `disconnect` handler: removes the socket from the queue of the mode
recorded in `playerSockets` (only that one), marks a not-yet-completed
current game `abandoned` while notifying the opponent, and drops the
socket record. -/
def handleDisconnect (st : ServerState) (sid : Nat) : ServerState × List Emit :=
  match st.playerSockets sid with
  | none => (st, [])
  | some info =>
    let st1 :=
      match info.modeId with
      | none => st
      | some m =>
        match st.lobbies m with
        | none => st
        | some lobby =>
          let lobby' := { lobby with players := lobby.players.filter (fun p => p.socketId ≠ sid) }
          { st with lobbies := mapUpdate st.lobbies m (some lobby') }
    let stepGame : ServerState × List Emit :=
      match info.gameId with
      | none => (st1, [])
      | some gid =>
        match st1.activeGames gid with
        | none => (st1, [])
        | some game =>
          if game.status ≠ .completed then
            let game' := { game with status := GameStatus.abandoned }
            ({ st1 with activeGames := mapUpdate st1.activeGames gid (some game') },
             [.opponentDisconnected gid gid "Your opponent disconnected. You win!"])
          else (st1, [])
    ({ stepGame.1 with playerSockets := mapUpdate stepGame.1.playerSockets sid none },
     stepGame.2)

/-- One inbound client message, naming the handler it is dispatched to. -/
inductive ClientEvent where
  | joinLobby (sid : Nat) (modeId address : String) (stateChannelProof : Option String)
      (freshGameId : String) (now : Nat)
  | spawnBlock (sid : Nat) (gameId : String) (block : Block)
  | endTurn (sid : Nat) (gameId : String) (blockStates : List Block)
  | syncBlockPosition (sid : Nat) (gameId : String) (blockId : Nat) (x y angle : Int)
  | syncGameState (sid : Nat) (gameId : String) (blockStates : List Block)
  | leaveLobby (sid : Nat) (modeId : String)
  | gameEnd (sid : Nat) (gameId : String) (finalScore : Int)
  | disconnect (sid : Nat)
deriving Repr, DecidableEq

/-- Dispatch of one message. -/
def step (st : ServerState) : ClientEvent → ServerState × List Emit
  | .joinLobby sid m a p fid now => handleJoinLobby st sid m a p fid now
  | .spawnBlock sid g b => handleSpawnBlock st sid g b
  | .endTurn sid g bs => handleEndTurn st sid g bs
  | .syncBlockPosition sid g bid x y ang => handleSyncBlockPosition st sid g bid x y ang
  | .syncGameState sid g bs => handleSyncGameState st sid g bs
  | .leaveLobby sid m => handleLeaveLobby st sid m
  | .gameEnd sid g s => handleGameEnd st sid g s
  | .disconnect sid => handleDisconnect st sid

/-- A serialized trace of messages, as processed by the single-threaded
server, with the emitted events concatenated in order. -/
def run (st : ServerState) : List ClientEvent → ServerState × List Emit
  | [] => (st, [])
  | e :: es =>
    let r1 := step st e
    let r2 := run r1.1 es
    (r2.1, r1.2 ++ r2.2)

/- ============================================================
   Part 3: channel negotiation (state-channel session handshake)
   Source: src/frontend/src/components/GameLobby.jsx (the `game_start`,
   `session_proposal_received`, `session_signature_received` and
   `session_ready` handlers).
   The relay methods these handlers call (`sendSessionProposal`,
   `sendSessionSignature`, `broadcastSessionCreated`) and their server-side
   relays are absent from the repository sources (GameLobby.jsx is their
   only caller).  Modelled from the spec: the relay delivers each named
   event to the other participant (spec section 4.3, steps 2, 3 and 5:
   the peer signs and returns only the signature, and the proposer
   broadcasts the resulting identifier, real or fallback, to the peer).
   The asynchronous handshake is embedded as deterministic outcome
   functions over one scenario record that fixes every external input
   (connectivity of each client, signer/ledger replies, whether the 15 s
   timer fires first, and the local nonces behind `Date.now()`-based
   fresh identifiers).
   ============================================================ -/

/-- What Player 2's `session_proposal_received` handler sends back:
either the signature, or `{ error }` when signing threw. -/
inductive SignReply where
  | sig (signature : Nat)
  | sigError (msg : String)
deriving Repr, DecidableEq

/-- Outcome of `submitMultiSignedSession`: a session with `appSessionId`,
a response without one, or a thrown error. -/
inductive LedgerReply where
  | created (appSessionId : String)
  | missingId
  | submitFailed
deriving Repr, DecidableEq

/-- Every external input of one negotiation, fixed up front.
`p1Offline` / `p2Offline` embed that client's
`!clearNodeConnected && !nitroliteClient.isConnected` test. -/
structure NegotiationScenario where
  p1Offline : Bool
  p2Offline : Bool
  proposalFails : Bool
  timeoutFires : Bool
  reply : SignReply
  ledger : LedgerReply
  p1Nonce : Nat
  p2Nonce : Nat
deriving Repr, DecidableEq

/-- A locally fabricated fallback identifier
(`` `demo_session_${Date.now()}` ``, with the nonce standing for the
clock/randomness). -/
def demoSessionId (nonce : Nat) : String :=
  "demo_session_" ++ toString nonce

/-- The identifier Player 1 passes to `broadcastSessionCreated`, if any.
In the offline short-circuit Player 1 generates a local demo identifier
without broadcasting anything (`none` here).  Otherwise every branch of
the source broadcasts: proposal-creation failure, the 15 s timeout,
an error reply from Player 2, and all three ledger outcomes. -/
def p1Broadcast (sc : NegotiationScenario) : Option String :=
  if sc.p1Offline then none
  else if sc.proposalFails then some (demoSessionId sc.p1Nonce)
  else if sc.timeoutFires then some (demoSessionId sc.p1Nonce)
  else
    match sc.reply with
    | .sigError _ => some (demoSessionId sc.p1Nonce)
    | .sig _ =>
      match sc.ledger with
      | .created id => some id
      | .missingId => some (demoSessionId sc.p1Nonce)
      | .submitFailed => some (demoSessionId sc.p1Nonce)

/-- The final `sessionId` observed by Player 1: its local demo identifier
in the offline short-circuit, otherwise whatever it broadcast. -/
def p1Observed (sc : NegotiationScenario) : Option String :=
  if sc.p1Offline then some (demoSessionId sc.p1Nonce)
  else p1Broadcast sc

/-- The final `sessionId` observed by Player 2: a received `session_ready`
overwrites it with the broadcast identifier; absent any broadcast, an
offline Player 2 keeps its own locally fabricated demo identifier, and an
online Player 2 keeps waiting for a proposal and never observes one. -/
def p2Observed (sc : NegotiationScenario) : Option String :=
  match p1Broadcast sc with
  | some id => some id
  | none => if sc.p2Offline then some (demoSessionId sc.p2Nonce) else none

/- ============================================================
   Concrete fixtures used to instantiate the theorems below
   ============================================================ -/

/-- A freshly matched two-player game (exactly the object `join_lobby`
builds), used to instantiate the turn-protocol theorems. -/
def gameW : Game :=
  { id := "g1"
    modeId := "tower"
    player1 := ⟨1, "0xA", none, 0, false⟩
    player2 := ⟨2, "0xB", none, 0, false⟩
    betAmount := 1000000
    status := .starting
    gameState := ⟨[], 1, 0, 0⟩
    result := none }

/-- A server state holding `gameW` and both of its player sockets. -/
def stW : ServerState :=
  { lobbies := fun _ => none
    activeGames := fun g => if g = "g1" then some gameW else none
    playerSockets := fun sid =>
      if sid = 1 then some ⟨some "0xA", some "tower", some "g1"⟩
      else if sid = 2 then some ⟨some "0xB", some "tower", some "g1"⟩
      else none }

/-- A sample block payload. -/
def blockW : Block := ⟨5, 10, 20, 0, "wood"⟩

/-- `gameW` after player 2 has already submitted a final score once. -/
def gameFin : Game :=
  { gameW with player2 := { gameW.player2 with score := 80, finished := true } }

/-- A server state holding `gameFin`. -/
def stFin : ServerState :=
  { stW with activeGames := fun g => if g = "g1" then some gameFin else none }

/-- An abandoned game in which player 1 had already submitted a score. -/
def gameAb : Game :=
  { gameW with
      status := .abandoned
      player1 := { gameW.player1 with score := 100, finished := true } }

/-- A server state holding `gameAb`. -/
def stAb : ServerState :=
  { stW with activeGames := fun g => if g = "g1" then some gameAb else none }

/-- A server state whose mode `m` queue already holds socket 1. -/
def stQ : ServerState :=
  { lobbies := fun m => if m = "m" then some ⟨[⟨1, "0xA", none, 0⟩], 0⟩ else none
    activeGames := fun _ => none
    playerSockets := fun sid => if sid = 1 then some ⟨some "0xA", some "m", none⟩ else none }

/-- Player 1 submits, disconnects (abandoning the game), then player 2
submits. -/
def traceAbandon : List ClientEvent :=
  [.joinLobby 1 "tower" "0xA" none "g1" 0,
   .joinLobby 2 "tower" "0xB" none "g1" 1,
   .gameEnd 1 "g1" 100,
   .disconnect 1,
   .gameEnd 2 "g1" 100]

/-- Both players submit once, then player 1 submits again. -/
def traceResubmit : List ClientEvent :=
  [.joinLobby 1 "tower" "0xA" none "g1" 0,
   .joinLobby 2 "tower" "0xB" none "g1" 1,
   .gameEnd 1 "g1" 100,
   .gameEnd 2 "g1" 100,
   .gameEnd 1 "g1" 999]

/-- Socket 1 queues in mode `modeA`, then joins mode `modeB` while still
queued, then disconnects. -/
def traceTwoModes : List ClientEvent :=
  [.joinLobby 1 "modeA" "0xA" none "gA" 0,
   .joinLobby 1 "modeB" "0xA" none "gB" 1,
   .disconnect 1]

/-- The two-join prefix of `traceTwoModes`. -/
def traceTwoModesPair : List ClientEvent :=
  [.joinLobby 1 "modeA" "0xA" none "gA" 0,
   .joinLobby 1 "modeB" "0xA" none "gB" 1]

/-- Negotiation scenario: both clients connected, peer signs, ledger
issues a real identifier. -/
def scOnline : NegotiationScenario :=
  ⟨false, false, false, false, .sig 7, .created "0xSESSION", 0, 1⟩

/-- Negotiation scenario: neither client connected (both short-circuit to
local demo identifiers, nonces 0 and 1). -/
def scOffline : NegotiationScenario :=
  ⟨true, true, false, false, .sig 0, .missingId, 0, 1⟩

/-- Negotiation scenario: only the non-proposer is connected. -/
def scSplit : NegotiationScenario :=
  ⟨true, false, false, false, .sig 0, .missingId, 0, 1⟩

/- ============================================================
   Theorems
   ============================================================ -/

/-- Claim C1, amended: for every achievement metric and stake the two
payouts are the identical integer half of the distributable amount, and
`sum(payouts) + protocolFee` accounts for all of `totalRewards` except the
leftover unit of an odd distributable total — that unit is assigned to
neither participant, so the exact-sum invariant holds precisely when the
distributable amount is even. -/
theorem settle_split_drops_odd_unit (h : Int) (s : Nat) :
    (settleGameSession h s).player1Payout = (settleGameSession h s).player2Payout ∧
    (settleGameSession h s).player1Payout + (settleGameSession h s).player2Payout
      + (settleGameSession h s).protocolFee
      + (totalRewardsOf h s - (settleGameSession h s).protocolFee) % 2
      = totalRewardsOf h s := by
  simp only [settleGameSession, totalRewardsOf]
  generalize s * 2 * (getRewardTier h).multiplierBasis = a
  refine ⟨trivial, ?_⟩
  split <;> omega

/-- Claim C1, counterexample: at metric 200 and stake 1 the distributable
amount is 3 (odd); both payouts are 1 and the fee is 0, so
`sum(payouts) + protocolFee = 2 ≠ 3 = totalRewards` — the leftover unit is
dropped rather than assigned to a participant slot. -/
theorem settle_sum_invariant_cex :
    ¬ ((settleGameSession 200 1).player1Payout + (settleGameSession 200 1).player2Payout
       + (settleGameSession 200 1).protocolFee = totalRewardsOf 200 1) := by decide

/-- Claim C8: with stake 1,000,000, metric 250 selects the 1.5x tier and
yields totalRewards 3,000,000, protocolFee 50,000 and payouts 1,475,000
each; metric 0 selects the 1.0x tier and returns the principal exactly
with zero fee. -/
theorem settle_examples :
    settleGameSession 250 1000000 =
      ⟨1475000, 1475000, 50000, ⟨200, 150, "🥇 Epic", "50%"⟩⟩ ∧
    totalRewardsOf 250 1000000 = 3000000 ∧
    settleGameSession 0 1000000 =
      ⟨1000000, 1000000, 0, ⟨0, 100, "✅ Complete", "0%"⟩⟩ :=
  ⟨rfl, rfl, rfl⟩

/-- Claim C9: a negative achievement metric resolves to the lowest tier
(threshold 0, multiplier 1.0) without error, and the settlement result
equals that of metric 0 for every stake. -/
theorem settle_negative_metric (s : Nat) (h : Int) (hneg : h < 0) :
    getRewardTier h = ⟨0, 100, "✅ Complete", "0%"⟩ ∧
    settleGameSession h s = settleGameSession 0 s := by
  have ht : getRewardTier h = getRewardTier 0 := by
    simp only [getRewardTier, REWARD_TIERS, findTier]
    rw [if_neg (by omega), if_neg (by omega), if_neg (by omega), if_neg (by omega)]
    rfl
  exact ⟨ht, by simp only [settleGameSession, ht]⟩

/-- Witness for C9 at metric -7 and stake 1,000,000. -/
theorem settle_negative_metric_witness :
    getRewardTier (-7) = ⟨0, 100, "✅ Complete", "0%"⟩ ∧
    settleGameSession (-7) 1000000 = settleGameSession 0 1000000 :=
  settle_negative_metric 1000000 (-7) (by norm_num)

/-- Claim C4: `end_turn` from the current turn holder flips `currentTurn`
to the other participant and increments the turn counter by one, while
`end_turn`, `spawn_block` and `sync_game_state` from the non-holder leave
the server state (shared blocks, turn holder, turn counter) unchanged. -/
theorem turn_gating_spec :
    (∀ (st : ServerState) (sid : Nat) (gameId : String) (blockStates : List Block)
        (game : Game),
      st.activeGames gameId = some game →
      (if game.player1.socketId = sid then 1 else 2) = game.gameState.currentTurn →
      ((handleEndTurn st sid gameId blockStates).1.activeGames gameId).map
          (fun g => (g.gameState.currentTurn, g.gameState.turnCount))
        = some ((if game.gameState.currentTurn = 1 then 2 else 1),
                game.gameState.turnCount + 1)) ∧
    (∀ (st : ServerState) (sid : Nat) (gameId : String) (blockStates : List Block)
        (game : Game),
      st.activeGames gameId = some game →
      (if game.player1.socketId = sid then 1 else 2) ≠ game.gameState.currentTurn →
      handleEndTurn st sid gameId blockStates = (st, [])) ∧
    (∀ (st : ServerState) (sid : Nat) (gameId : String) (block : Block) (game : Game),
      st.activeGames gameId = some game →
      (if game.player1.socketId = sid then 1 else 2) ≠ game.gameState.currentTurn →
      (handleSpawnBlock st sid gameId block).1 = st) ∧
    (∀ (st : ServerState) (sid : Nat) (gameId : String) (blockStates : List Block)
        (game : Game),
      st.activeGames gameId = some game →
      (if game.player1.socketId = sid then 1 else 2) ≠ game.gameState.currentTurn →
      handleSyncGameState st sid gameId blockStates = (st, [])) := by
  refine ⟨?_, ?_, ?_, ?_⟩
  · intro st sid gameId blockStates game hg hpn
    simp only [handleEndTurn, hg]
    rw [if_neg (fun hc => hc hpn.symm)]
    simp [mapUpdate, hpn]
  · intro st sid gameId blockStates game hg hpn
    simp only [handleEndTurn, hg]
    rw [if_pos (fun hc => hpn hc.symm)]
  · intro st sid gameId block game hg hpn
    simp only [handleSpawnBlock, hg]
    rw [if_pos (fun hc => hpn hc.symm)]
  · intro st sid gameId blockStates game hg hpn
    simp only [handleSyncGameState, hg]
    rw [if_pos (fun hc => hpn hc.symm)]

/-- Witness for C4 on the concrete game `gameW` (holder socket 1,
non-holder socket 2). -/
theorem turn_gating_spec_witness :
    ((handleEndTurn stW 1 "g1" [blockW]).1.activeGames "g1").map
        (fun g => (g.gameState.currentTurn, g.gameState.turnCount))
      = some ((if gameW.gameState.currentTurn = 1 then 2 else 1),
              gameW.gameState.turnCount + 1) ∧
    handleEndTurn stW 2 "g1" [blockW] = (stW, []) ∧
    (handleSpawnBlock stW 2 "g1" blockW).1 = stW ∧
    handleSyncGameState stW 2 "g1" [blockW] = (stW, []) :=
  ⟨turn_gating_spec.1 stW 1 "g1" [blockW] gameW rfl rfl,
   turn_gating_spec.2.1 stW 2 "g1" [blockW] gameW rfl (by decide),
   turn_gating_spec.2.2.1 stW 2 "g1" blockW gameW rfl (by decide),
   turn_gating_spec.2.2.2 stW 2 "g1" [blockW] gameW rfl (by decide)⟩

/-- Claim C5, counterexample: on `gameW` (turn holder socket 1), an
out-of-turn `end_turn` from socket 2 emits nothing at all — it is silently
dropped, not rejected with an error — and a `sync_block_position` from the
non-holder socket 2 is relayed to the peer despite the sender not holding
the turn. -/
theorem out_of_turn_silent_cex :
    (handleEndTurn stW 2 "g1" [blockW]).2 = [] ∧
    (handleSyncBlockPosition stW 2 "g1" 5 0 0 0).2
      = [.blockPositionUpdate "g1" 5 0 0 0] :=
  ⟨rfl, rfl⟩

/-- Claim C5, amended: an out-of-turn `spawn_block` is rejected immediately
with an error event to the caller and no state change; an out-of-turn
`end_turn` or `sync_game_state` returns immediately but silently (no error
event); and `sync_block_position` never mutates the authoritative state
but is accepted and relayed whenever the game exists, regardless of
whether the sender holds the turn. -/
theorem out_of_turn_behavior :
    (∀ (st : ServerState) (sid : Nat) (gameId : String) (block : Block) (game : Game),
      st.activeGames gameId = some game →
      (if game.player1.socketId = sid then 1 else 2) ≠ game.gameState.currentTurn →
      handleSpawnBlock st sid gameId block = (st, [.errorMsg sid "Not your turn!"])) ∧
    (∀ (st : ServerState) (sid : Nat) (gameId : String) (blockStates : List Block)
        (game : Game),
      st.activeGames gameId = some game →
      (if game.player1.socketId = sid then 1 else 2) ≠ game.gameState.currentTurn →
      handleEndTurn st sid gameId blockStates = (st, [])) ∧
    (∀ (st : ServerState) (sid : Nat) (gameId : String) (blockStates : List Block)
        (game : Game),
      st.activeGames gameId = some game →
      (if game.player1.socketId = sid then 1 else 2) ≠ game.gameState.currentTurn →
      handleSyncGameState st sid gameId blockStates = (st, [])) ∧
    (∀ (st : ServerState) (sid : Nat) (gameId : String) (blockId : Nat) (x y angle : Int)
        (game : Game),
      st.activeGames gameId = some game →
      handleSyncBlockPosition st sid gameId blockId x y angle
        = (st, [.blockPositionUpdate gameId blockId x y angle])) := by
  refine ⟨?_, ?_, ?_, ?_⟩
  · intro st sid gameId block game hg hpn
    simp only [handleSpawnBlock, hg]
    rw [if_pos (fun hc => hpn hc.symm)]
  · intro st sid gameId blockStates game hg hpn
    simp only [handleEndTurn, hg]
    rw [if_pos (fun hc => hpn hc.symm)]
  · intro st sid gameId blockStates game hg hpn
    simp only [handleSyncGameState, hg]
    rw [if_pos (fun hc => hpn hc.symm)]
  · intro st sid gameId blockId x y angle game hg
    simp only [handleSyncBlockPosition, hg]

/-- Witness for the amended C5 on `gameW` with non-holder socket 2. -/
theorem out_of_turn_behavior_witness :
    handleSpawnBlock stW 2 "g1" blockW = (stW, [.errorMsg 2 "Not your turn!"]) ∧
    handleEndTurn stW 2 "g1" [] = (stW, []) ∧
    handleSyncGameState stW 2 "g1" [] = (stW, []) ∧
    handleSyncBlockPosition stW 2 "g1" 7 1 2 3
      = (stW, [.blockPositionUpdate "g1" 7 1 2 3]) :=
  ⟨out_of_turn_behavior.1 stW 2 "g1" blockW gameW rfl (by decide),
   out_of_turn_behavior.2.1 stW 2 "g1" [] gameW rfl (by decide),
   out_of_turn_behavior.2.2.1 stW 2 "g1" [] gameW rfl (by decide),
   out_of_turn_behavior.2.2.2 stW 2 "g1" 7 1 2 3 gameW rfl⟩

/-- Claim C6, counterexample: after both participants have submitted once
(settlement emitted, tie at 100/100), a further submission by player 1
overwrites their score to 999 and recomputes and re-emits a different
settlement outcome, instead of being rejected with session state
unaffected. -/
theorem double_submit_cex :
    ((run initState traceResubmit).1.activeGames "g1").map (fun g => g.player1.score)
        = some 999 ∧
    (run initState traceResubmit).2 =
      [.waitingForOpponent 1 "tower" 1, .matchFound "g1",
       .gameStart 1 "g1" 1 true, .gameStart 2 "g1" 2 false,
       .gameResultEvt "g1" ⟨"g1", ⟨"0xA", 100, 980000⟩, ⟨"0xB", 100, 980000⟩, "tie", 40000⟩,
       .gameResultEvt "g1" ⟨"g1", ⟨"0xA", 999, 1781640⟩, ⟨"0xB", 100, 176400⟩, "0xA", 40000⟩] :=
  ⟨rfl, rfl⟩

/-- Claim C6, amended: the final-score handler never rejects a repeated
submission: whenever the other participant's finished flag is already set,
any submission by player 1 (first or repeated) overwrites player 1's score,
recomputes the settlement from the updated scores, re-emits it, and leaves
the session completed with the new score stored. -/
theorem game_end_resubmission (st : ServerState) (sid : Nat) (gid : String)
    (s : Int) (game : Game)
    (hg : st.activeGames gid = some game)
    (h1 : game.player1.socketId = sid)
    (h2 : game.player2.finished = true) :
    (handleGameEnd st sid gid s).2
      = [.gameResultEvt gid (computeGameResult gid
          { game with player1 := { game.player1 with score := s, finished := true } })] ∧
    ((handleGameEnd st sid gid s).1.activeGames gid).map
        (fun g => (g.status, g.player1.score))
      = some (GameStatus.completed, s) := by
  simp only [handleGameEnd, hg, h1, if_pos]
  simp [h2, mapUpdate]

/-- Witness for the amended C6: on `gameFin` (player 2 already finished),
a submission of 123 by player 1 re-emits a settlement and stores the new
score with the session completed. -/
theorem game_end_resubmission_witness :
    (handleGameEnd stFin 1 "g1" 123).2
      = [.gameResultEvt "g1" (computeGameResult "g1"
          { gameFin with player1 := { gameFin.player1 with score := 123, finished := true } })] ∧
    ((handleGameEnd stFin 1 "g1" 123).1.activeGames "g1").map
        (fun g => (g.status, g.player1.score))
      = some (GameStatus.completed, 123) :=
  game_end_resubmission stFin 1 "g1" 123 gameFin rfl rfl rfl

/-- Claim C3, counterexample: player 1 submits a final score, disconnects
(the session is marked abandoned and the opponent notified of the win),
and then player 2's submission still computes and emits a settlement
result, and the abandoned session ends up completed (settled). -/
theorem abandoned_then_settled_cex :
    ((run initState traceAbandon).1.activeGames "g1").map Game.status
        = some GameStatus.completed ∧
    (run initState traceAbandon).2 =
      [.waitingForOpponent 1 "tower" 1, .matchFound "g1",
       .gameStart 1 "g1" 1 true, .gameStart 2 "g1" 2 false,
       .opponentDisconnected "g1" "g1" "Your opponent disconnected. You win!",
       .gameResultEvt "g1" ⟨"g1", ⟨"0xA", 100, 980000⟩, ⟨"0xB", 100, 980000⟩, "tie", 40000⟩] :=
  ⟨rfl, rfl⟩

/-- Claim C3, amended: a disconnect during a not-yet-completed session does
transition it to abandoned and does notify the remaining participant of a
win outcome, but abandonment does not block settlement: the final-score
handler ignores the session status, so a later submission that completes
both finished flags still computes and emits a settlement result for the
abandoned session. -/
theorem disconnect_abandons_settlement_unguarded :
    (∀ (st : ServerState) (sid : Nat) (info : SocketInfo) (gid : String) (game : Game),
      st.playerSockets sid = some info →
      info.gameId = some gid →
      st.activeGames gid = some game →
      game.status ≠ GameStatus.completed →
      ((handleDisconnect st sid).1.activeGames gid).map Game.status
          = some GameStatus.abandoned ∧
      (handleDisconnect st sid).2
          = [.opponentDisconnected gid gid "Your opponent disconnected. You win!"]) ∧
    (∀ (st : ServerState) (sid : Nat) (gid : String) (s : Int) (game : Game),
      st.activeGames gid = some game →
      game.status = GameStatus.abandoned →
      game.player1.socketId ≠ sid →
      game.player2.socketId = sid →
      game.player1.finished = true →
      (handleGameEnd st sid gid s).2
        = [.gameResultEvt gid (computeGameResult gid
            { game with player2 := { game.player2 with score := s, finished := true } })]) := by
  constructor
  · intro st sid info gid game hs hgid hg hst
    obtain ⟨addr, mo, gmid⟩ := info
    simp only at hgid
    subst hgid
    simp only [handleDisconnect, hs]
    cases mo with
    | none => simp [hg, hst, mapUpdate]
    | some m =>
      cases hlob : st.lobbies m with
      | none => simp [hg, hst, hlob, mapUpdate]
      | some lobby => simp [hg, hst, hlob, mapUpdate]
  · intro st sid gid s game hg hab h1 h2 hfin
    simp only [handleGameEnd, hg]
    rw [if_neg h1, if_pos h2]
    simp [hfin]

/-- Witness for the amended C3: disconnecting socket 1 abandons `gameW`
and notifies the peer; on the abandoned `gameAb` a submission by socket 2
still emits a settlement result. -/
theorem disconnect_abandons_settlement_unguarded_witness :
    (((handleDisconnect stW 1).1.activeGames "g1").map Game.status
        = some GameStatus.abandoned ∧
     (handleDisconnect stW 1).2
        = [.opponentDisconnected "g1" "g1" "Your opponent disconnected. You win!"]) ∧
    (handleGameEnd stAb 2 "g1" 55).2
      = [.gameResultEvt "g1" (computeGameResult "g1"
          { gameAb with player2 := { gameAb.player2 with score := 55, finished := true } })] :=
  ⟨disconnect_abandons_settlement_unguarded.1 stW 1
      ⟨some "0xA", some "tower", some "g1"⟩ "g1" gameW rfl rfl rfl (by decide),
   disconnect_abandons_settlement_unguarded.2 stAb 2 "g1" 55 gameAb rfl rfl
      (by decide) rfl rfl⟩

/-- Claim C7, counterexample: socket 1 queues in mode `modeA`, joins mode
`modeB` while still queued, and is then waiting in both queues at once;
after a disconnect only the `modeB` entry (the last recorded mode) is
removed and the `modeA` entry is left stale. -/
theorem stale_queue_entries_cex :
    ((run initState traceTwoModesPair).1.lobbies "modeA").map
        (fun l => l.players.map LobbyEntry.socketId) = some [1] ∧
    ((run initState traceTwoModesPair).1.lobbies "modeB").map
        (fun l => l.players.map LobbyEntry.socketId) = some [1] ∧
    ((run initState traceTwoModes).1.lobbies "modeA").map
        (fun l => l.players.map LobbyEntry.socketId) = some [1] ∧
    ((run initState traceTwoModes).1.lobbies "modeB").map
        (fun l => l.players.map LobbyEntry.socketId) = some [] :=
  ⟨rfl, rfl, rfl, rfl⟩

/-- Claim C7, amended: each queue operation touches exactly one mode's
queue: `join_lobby` never removes the caller from any other mode's queue
(so joining while queued elsewhere leaves the participant in several
queues), `leave_lobby` filters only the given mode, and `disconnect`
filters only the mode recorded for the socket by its most recent join. -/
theorem lobby_ops_touch_one_mode :
    (∀ (st : ServerState) (sid : Nat) (modeId address : String) (proof : Option String)
        (fid : String) (now : Nat) (m' : String), m' ≠ modeId →
      (handleJoinLobby st sid modeId address proof fid now).1.lobbies m'
        = st.lobbies m') ∧
    (∀ (st : ServerState) (sid : Nat) (info : SocketInfo) (m m' : String),
      st.playerSockets sid = some info →
      info.modeId = some m →
      m' ≠ m →
      (handleDisconnect st sid).1.lobbies m' = st.lobbies m') ∧
    (∀ (st : ServerState) (sid : Nat) (m m' : String), m' ≠ m →
      (handleLeaveLobby st sid m).1.lobbies m' = st.lobbies m') := by
  refine ⟨?_, ?_, ?_⟩
  · intro st sid modeId address proof fid now m' hne
    simp only [handleJoinLobby]
    cases hl : st.lobbies modeId with
    | none =>
      simp only [mapUpdate, if_neg hne]
      split <;> simp [mapUpdate, hne, hl]
    | some lobby =>
      split <;> simp [mapUpdate, hne, hl]
  · intro st sid info m m' hs hm hne
    obtain ⟨addr, mo, gmid⟩ := info
    simp only at hm
    subst hm
    simp only [handleDisconnect, hs]
    cases hlob : st.lobbies m with
    | none =>
      cases gmid with
      | none => simp [hlob]
      | some gid =>
        cases hgm : st.activeGames gid with
        | none => simp [hlob, hgm]
        | some game =>
          by_cases hc : game.status = GameStatus.completed <;>
            simp [hlob, hgm, hc, mapUpdate]
    | some lobby =>
      cases gmid with
      | none => simp [hlob, mapUpdate, hne]
      | some gid =>
        cases hgm : st.activeGames gid with
        | none => simp [hlob, hgm, mapUpdate, hne]
        | some game =>
          by_cases hc : game.status = GameStatus.completed <;>
            simp [hlob, hgm, hc, mapUpdate, hne]
  · intro st sid m m' hne
    simp only [handleLeaveLobby]
    cases hs : st.playerSockets sid with
    | none => rfl
    | some info =>
      cases hlob : st.lobbies m with
      | none => simp [hlob]
      | some lobby => simp [hlob, mapUpdate, hne]

/-- Witness for the amended C7 at mode `tower` and unrelated mode `other`. -/
theorem lobby_ops_touch_one_mode_witness :
    (handleJoinLobby stW 3 "m" "0xC" none "g9" 5).1.lobbies "other"
        = stW.lobbies "other" ∧
    (handleDisconnect stW 1).1.lobbies "other" = stW.lobbies "other" ∧
    (handleLeaveLobby stW 1 "tower").1.lobbies "other" = stW.lobbies "other" :=
  ⟨lobby_ops_touch_one_mode.1 stW 3 "m" "0xC" none "g9" 5 "other" (by decide),
   lobby_ops_touch_one_mode.2.1 stW 1 ⟨some "0xA", some "tower", some "g1"⟩
      "tower" "other" rfl rfl (by decide),
   lobby_ops_touch_one_mode.2.2 stW 1 "tower" "other" (by decide)⟩

/-- Claim C10: `join_lobby` never compares the joiner's identity with the
waiting entry: when the head of the mode's queue is the joiner's own
earlier entry, that entry is dequeued and a game is created whose two
player records carry the same socket. -/
theorem self_match_same_participant (st : ServerState) (sid : Nat)
    (modeId address : String) (proof : Option String) (fid : String) (now : Nat)
    (lobby : Lobby) (e : LobbyEntry) (rest : List LobbyEntry)
    (hl : st.lobbies modeId = some lobby)
    (hp : lobby.players = e :: rest)
    (he : e.socketId = sid) :
    (((handleJoinLobby st sid modeId address proof fid now).1.activeGames fid).map
        (fun g => (g.player1.socketId, g.player2.socketId))) = some (sid, sid) ∧
    ((handleJoinLobby st sid modeId address proof fid now).1.lobbies modeId).map
        Lobby.players = some rest := by
  simp only [handleJoinLobby, hl, Option.getD, hp]
  simp [mapUpdate, he]

/-- Witness for C10: socket 1, already queued in mode `m` of `stQ`, joins
`m` again and is matched against itself. -/
theorem self_match_same_participant_witness :
    (((handleJoinLobby stQ 1 "m" "0xA" none "g2" 9).1.activeGames "g2").map
        (fun g => (g.player1.socketId, g.player2.socketId))) = some (1, 1) ∧
    ((handleJoinLobby stQ 1 "m" "0xA" none "g2" 9).1.lobbies "m").map
        Lobby.players = some [] :=
  self_match_same_participant stQ 1 "m" "0xA" none "g2" 9
    ⟨[⟨1, "0xA", none, 0⟩], 0⟩ ⟨1, "0xA", none, 0⟩ [] rfl rfl rfl

/-- Claim C2, counterexample: when neither client can reach the ClearNode,
both negotiations terminate (each with a fabricated placeholder), yet the
two participants observe different identifiers — `demo_session_0` versus
`demo_session_1` — because each fabricates its own. -/
theorem negotiation_identifier_split_cex :
    (p1Observed scOffline).isSome = true ∧ (p2Observed scOffline).isSome = true ∧
    p1Observed scOffline ≠ p2Observed scOffline :=
  ⟨rfl, rfl, by decide⟩

/-- Claim C2, amended: when the proposer's client is connected, negotiation
terminates with a single identifier — either the ledger-issued one or a
fabricated `demo_session` fallback — observed identically by both
participants; when neither client is connected both terminate in simulated
mode but each observes its own locally fabricated placeholder; and when
only the non-proposer is connected, the non-proposer never observes an
identifier at all. -/
theorem negotiation_modes (sc : NegotiationScenario) :
    (sc.p1Offline = false →
       p1Observed sc = p2Observed sc ∧ p1Observed sc ≠ none ∧
       ((∃ n, p1Observed sc = some (demoSessionId n)) ∨
        (∃ id, sc.ledger = .created id ∧ p1Observed sc = some id))) ∧
    (sc.p1Offline = true → sc.p2Offline = true →
       p1Observed sc = some (demoSessionId sc.p1Nonce) ∧
       p2Observed sc = some (demoSessionId sc.p2Nonce)) ∧
    (sc.p1Offline = true → sc.p2Offline = false → p2Observed sc = none) := by
  obtain ⟨p1o, p2o, pf, tf, rep, led, n1, n2⟩ := sc
  refine ⟨?_, ?_, ?_⟩
  · intro h1
    simp only at h1
    subst h1
    cases pf <;> cases tf <;> cases rep <;> cases led <;>
      simp [p1Observed, p1Broadcast, p2Observed]
  · intro h1 h2
    simp only at h1 h2
    subst h1; subst h2
    simp [p1Observed, p1Broadcast, p2Observed]
  · intro h1 h2
    simp only at h1 h2
    subst h1; subst h2
    simp [p1Observed, p1Broadcast, p2Observed]

/-- Witness for the amended C2 at the three concrete scenarios `scOnline`,
`scOffline` and `scSplit`. -/
theorem negotiation_modes_witness :
    (p1Observed scOnline = p2Observed scOnline ∧ p1Observed scOnline ≠ none ∧
       ((∃ n, p1Observed scOnline = some (demoSessionId n)) ∨
        (∃ id, scOnline.ledger = .created id ∧ p1Observed scOnline = some id))) ∧
    (p1Observed scOffline = some (demoSessionId scOffline.p1Nonce) ∧
     p2Observed scOffline = some (demoSessionId scOffline.p2Nonce)) ∧
    p2Observed scSplit = none :=
  ⟨(negotiation_modes scOnline).1 rfl,
   (negotiation_modes scOffline).2.1 rfl rfl,
   (negotiation_modes scSplit).2.2 rfl rfl⟩
